import Mathlib

/-!
Shallow embedding of the TriageIR-CLI collection engine (Rust sources under
src/TriageIR-CLI/src/) in Lean 4, together with proofs settling the frozen
claims C1-C10 about the natural-language specification.

Modelling conventions:
* Rust `u32`/`u16`/`u64`/`usize` values are `Nat`; reductions `% 2^w` are
  written where the source truncates (`as u16`).
* Wall-clock reads (`chrono::Utc::now()`) are threaded as an explicit
  `now : String` argument.
* OS surfaces (the registry, directory walks, the raw event-log read, the
  TCP table) are passed in as explicit data so that collectors become pure
  functions of them.
* Cryptographic and lossy-decoding primitives (SHA-256 hex, UTF-8 lossy
  decoding) are abstract function parameters: every theorem proved here
  holds for all implementations of them.
-/

namespace TriageIR

/-! ## String helpers mirroring Rust std behaviour -/

/-- Substring containment on character lists (Rust `str::contains`). -/
def listContains (hay needle : List Char) : Bool :=
  hay.tails.any (fun t => needle.isPrefixOf t)

/-- Rust `str::contains` for strings. -/
def strContains (hay needle : String) : Bool :=
  listContains hay.data needle.data

/-- Rust `str::to_lowercase` (ASCII-adequate for the paths compared here). -/
def strToLower (s : String) : String := String.mk (s.data.map Char.toLower)

/-- Rust `str::to_uppercase` (ASCII-adequate for the extensions compared here). -/
def strToUpper (s : String) : String := String.mk (s.data.map Char.toUpper)

/-- Rust `str::starts_with` on strings. -/
def strStartsWith (s pre : String) : Bool := pre.data.isPrefixOf s.data

/-- Rust `str::replace`, left-to-right non-overlapping, on character lists;
the fuel argument equals the remaining input length, which each step
strictly consumes (the empty pattern does not occur in the embedded code). -/
def listReplaceFuel (pat rep : List Char) : Nat → List Char → List Char
  | _, [] => []
  | 0, s => s
  | Nat.succ fuel, c :: rest =>
    if pat ≠ [] ∧ pat.isPrefixOf (c :: rest) then
      rep ++ listReplaceFuel pat rep fuel ((c :: rest).drop pat.length)
    else c :: listReplaceFuel pat rep fuel rest

/-- Rust `str::replace` for strings. -/
def strReplace (s pat rep : String) : String :=
  String.mk (listReplaceFuel pat.data rep.data s.data.length s.data)

/-- Rust `"...".parse::<u16>()`: optional leading `+`, one or more ASCII
digits, value at most 65535; anything else is an error (`none`). -/
def rustParseU16 (s : String) : Option Nat :=
  let cs := match s.data with
    | '+' :: rest => rest
    | cs => cs
  if cs.isEmpty then none
  else if cs.all (fun c => c.isDigit) then
    let n := cs.foldl (fun acc c => acc * 10 + (c.toNat - 48)) 0
    if n ≤ 65535 then some n else none
  else none

/-- Split a character list at its LAST colon: returns (before, after). -/
def splitLastColon : List Char → Option (List Char × List Char)
  | [] => none
  | c :: rest =>
    match splitLastColon rest with
    | some (pre, post) => some (c :: pre, post)
    | none => if c = ':' then some ([], rest) else none

/-! ## types.rs -/

/-- types.rs `LogEntry`. `LogEntry::new` reads the clock; here the timestamp
is an explicit argument. -/
structure LogEntry where
  timestamp : String
  level : String
  message : String
deriving DecidableEq, Repr

/-- types.rs `LogEntry::new` with the wall clock passed explicitly. -/
def LogEntry.new (now level message : String) : LogEntry :=
  ⟨now, level, message⟩

/-- types.rs `LogLevel`. -/
inductive LogLevel where
  | info
  | warn
  | error
deriving DecidableEq, Repr

/-- types.rs `LogLevel::as_str`. -/
def LogLevel.as_str : LogLevel → String
  | .info => "INFO"
  | .warn => "WARN"
  | .error => "ERROR"

/-- types.rs `NetworkConnection`. -/
structure NetworkConnection where
  protocol : String
  local_address : String
  local_port : Nat
  remote_address : String
  remote_port : Nat
  state : String
  owning_pid : Nat
  process_name : String
deriving DecidableEq, Repr

/-- types.rs `extract_address_and_port`: split `"addr:port"` at the last
colon; the port parses with `unwrap_or(0)`; with no colon the port is 0. -/
def extract_address_and_port (addr_port : String) : String × Nat :=
  match splitLastColon addr_port.data with
  | some (pre, post) => (String.mk pre, (rustParseU16 (String.mk post)).getD 0)
  | none => (addr_port, 0)

/-- types.rs `NetworkConnection::new`: splits ports out of the two address
strings; `process_name` starts empty. -/
def NetworkConnection.new (protocol local_address remote_address state : String)
    (owning_pid : Nat) : NetworkConnection :=
  let lp := extract_address_and_port local_address
  let rp := extract_address_and_port remote_address
  ⟨protocol, lp.1, lp.2, rp.1, rp.2, state, owning_pid, ""⟩

/-- types.rs `NetworkConnection::is_external`. -/
def NetworkConnection.is_external (c : NetworkConnection) : Bool :=
  !(strStartsWith c.remote_address "127.0.0.1") &&
  !(strStartsWith c.remote_address "::1") &&
  !(strStartsWith c.remote_address "0.0.0.0") &&
  (c.remote_address != "*")

/-- types.rs `PersistenceMechanism`. -/
structure PersistenceMechanism where
  mechanism_type : String
  name : String
  command : String
  source : String
  location : String
  value : String
  is_suspicious : Bool
deriving DecidableEq, Repr

/-- types.rs `PersistenceMechanism::new`: location and value start empty and
`is_suspicious` starts `false`. -/
def PersistenceMechanism.new (mechanism_type name command source : String) :
    PersistenceMechanism :=
  ⟨mechanism_type, name, command, source, "", "", false⟩

/-- types.rs `PersistenceType`. -/
inductive PersistenceType where
  | registryRunKey
  | scheduledTask
  | service
  | startupFolder
  | wmiEventConsumer
deriving DecidableEq, Repr

/-- types.rs `PersistenceType::as_str`. -/
def PersistenceType.as_str : PersistenceType → String
  | .registryRunKey => "Registry Run Key"
  | .scheduledTask => "Scheduled Task"
  | .service => "Windows Service"
  | .startupFolder => "Startup Folder"
  | .wmiEventConsumer => "WMI Event Consumer"

/-- types.rs `EventLogEntry`. -/
structure EventLogEntry where
  event_id : Nat
  level : String
  timestamp : String
  message : String
  source : String
deriving DecidableEq, Repr

/-- types.rs `EventLogEntry::new`: the `source` field is hard-coded to
`"Unknown"`. -/
def EventLogEntry.new (event_id : Nat) (level timestamp message : String) :
    EventLogEntry :=
  ⟨event_id, level, timestamp, message, "Unknown"⟩

/-- types.rs `EventLogEntry::new_with_source`. -/
def EventLogEntry.new_with_source (event_id : Nat)
    (level timestamp message source : String) : EventLogEntry :=
  ⟨event_id, level, timestamp, message, source⟩

/-- types.rs `EventLogs`: the three per-log collections. -/
structure EventLogs where
  security : List EventLogEntry
  system : List EventLogEntry
  application : List EventLogEntry
deriving DecidableEq, Repr

/-- types.rs `EventLogs::total_entries`. -/
def EventLogs.total_entries (e : EventLogs) : Nat :=
  e.security.length + e.system.length + e.application.length

/-! ## logger.rs : bounded logger -/

/-- logger.rs `Logger`: a bounded queue of log entries (front = oldest).
The mutex only serialises access and has no sequential semantics. -/
structure Logger where
  entries : List LogEntry
  verbose : Bool
  max_entries : Nat
deriving Repr

/-- logger.rs `Logger::new`: empty queue, capacity 10000. -/
def Logger.new (verbose : Bool) : Logger :=
  ⟨[], verbose, 10000⟩

/-- logger.rs `Logger::log`: if the queue is full, drop the oldest entry,
then append the new one (clock passed as `now`). -/
def Logger.log (l : Logger) (now : String) (level : LogLevel) (message : String) :
    Logger :=
  let entry := LogEntry.new now level.as_str message
  { l with entries :=
      (if l.entries.length ≥ l.max_entries then l.entries.drop 1 else l.entries)
        ++ [entry] }

/-- logger.rs `Logger::info`. -/
def Logger.info (l : Logger) (now message : String) : Logger :=
  l.log now .info message

/-- logger.rs `Logger::warn`. -/
def Logger.warn (l : Logger) (now message : String) : Logger :=
  l.log now .warn message

/-- logger.rs `Logger::error`. -/
def Logger.error (l : Logger) (now message : String) : Logger :=
  l.log now .error message

/-- logger.rs `Logger::get_entries`: snapshot in insertion order. -/
def Logger.get_entries (l : Logger) : List LogEntry :=
  l.entries

/-! ## logger.rs : error model -/

/-- logger.rs `ErrorKind`. -/
inductive ErrorKind where
  | accessDenied
  | systemApiError
  | notFound
  | invalidData
  | networkError
  | timeout
  | unknown
deriving DecidableEq, Repr

/-- logger.rs `ErrorKind::as_str`. -/
def ErrorKind.as_str : ErrorKind → String
  | .accessDenied => "ACCESS_DENIED"
  | .systemApiError => "SYSTEM_API_ERROR"
  | .notFound => "NOT_FOUND"
  | .invalidData => "INVALID_DATA"
  | .networkError => "NETWORK_ERROR"
  | .timeout => "TIMEOUT"
  | .unknown => "UNKNOWN"

/-- logger.rs `ForensicError`. -/
structure ForensicError where
  kind : ErrorKind
  message : String
  context : Option String
deriving DecidableEq, Repr

/-- logger.rs `ForensicError::new`. -/
def ForensicError.new (kind : ErrorKind) (message : String) : ForensicError :=
  ⟨kind, message, none⟩

/-- logger.rs `ForensicError::is_fatal`: SystemApiError and InvalidData. -/
def ForensicError.is_fatal (e : ForensicError) : Bool :=
  match e.kind with
  | .systemApiError | .invalidData => true
  | _ => false

/-- logger.rs `ForensicError::is_retryable`: NetworkError and Timeout. -/
def ForensicError.is_retryable (e : ForensicError) : Bool :=
  match e.kind with
  | .networkError | .timeout => true
  | _ => false

/-- logger.rs `ForensicError::user_message`. -/
def ForensicError.user_message (e : ForensicError) : String :=
  match e.kind with
  | .accessDenied => "Access denied: " ++ e.message ++ ". Try running as administrator."
  | .systemApiError => "System error: " ++ e.message ++ ". This may indicate a system issue."
  | .notFound => "Resource not found: " ++ e.message ++ ". This is normal for some systems."
  | .invalidData => "Invalid data encountered: " ++ e.message ++ ". Data may be corrupted."
  | .networkError => "Network error: " ++ e.message ++ ". Check network connectivity."
  | .timeout => "Operation timed out: " ++ e.message ++ ". System may be under heavy load."
  | .unknown => "Unknown error: " ++ e.message ++ "."

/-- logger.rs `Display for ForensicError`. -/
def ForensicError.display (e : ForensicError) : String :=
  match e.context with
  | some c => e.kind.as_str ++ " (" ++ c ++ "): " ++ e.message
  | none => e.kind.as_str ++ ": " ++ e.message

/-! ## logger.rs : retry and graceful degradation -/

/-- logger.rs `retry_operation` inner loop over the remaining attempt
numbers (the Rust `for attempt in 1..=max_attempts`). The operation is a
function from the attempt number to its result (the n-th invocation of the
Rust closure); `invoked` counts invocations so far; `last_error` mirrors the
`last_error` variable; the sleep between attempts has no sequential effect.
Returns (result, number of invocations, logger). -/
def retry_loop {T : Type} (op : Nat → Except ForensicError T) (max_attempts : Nat)
    (now : String) :
    List Nat → Nat → Option ForensicError → Logger →
      Except ForensicError T × Nat × Logger
  | [], invoked, last_error, st =>
    (.error (last_error.getD (ForensicError.new .unknown "All retry attempts failed")),
      invoked, st)
  | attempt :: rest, invoked, _last_error, st =>
    match op attempt with
    | .ok v =>
      (.ok v, invoked + 1,
        if attempt > 1 then
          st.info now ("Operation succeeded on attempt " ++ toString attempt)
        else st)
    | .error e =>
      if e.is_retryable ∧ attempt < max_attempts then
        retry_loop op max_attempts now rest (invoked + 1) (some e)
          (st.warn now ("Attempt " ++ toString attempt ++ " failed, retrying: " ++ e.display))
      else (.error e, invoked + 1, st)

/-- logger.rs `retry_operation`: run the loop over attempts 1..=max. -/
def retry_operation {T : Type} (op : Nat → Except ForensicError T)
    (max_attempts : Nat) (now : String) (st : Logger) :
    Except ForensicError T × Nat × Logger :=
  retry_loop op max_attempts now (List.range' 1 max_attempts) 0 none st

/-- logger.rs `handle_error_gracefully`: on success pass the value through
without logging; on failure log at ERROR when fatal, else WARN, and return
`none`. -/
def handle_error_gracefully {T : Type} (result : Except ForensicError T)
    (st : Logger) (operation_name now : String) : Option T × Logger :=
  match result with
  | .ok v => (some v, st)
  | .error e =>
    if e.is_fatal then
      (none, st.error now ("Fatal error in " ++ operation_name ++ ": " ++ e.user_message))
    else
      (none, st.warn now ("Non-fatal error in " ++ operation_name ++ ": " ++ e.user_message))

/-! ## network.rs -/

/-- network.rs `MIB_TCPROW_OWNER_PID` as returned by `GetExtendedTcpTable`
(all fields u32; addresses and ports in network byte order). -/
structure MIB_TCPROW_OWNER_PID where
  dwState : Nat
  dwLocalAddr : Nat
  dwLocalPort : Nat
  dwRemoteAddr : Nat
  dwRemotePort : Nat
  dwOwningPid : Nat
deriving DecidableEq, Repr

/-- network.rs `format_ip_address`: the four bytes of the u32, low byte
first (`addr & 0xFF`, then successive right-shifts by 8). -/
def format_ip_address (addr : Nat) : String :=
  toString (addr % 256) ++ "." ++ toString (addr / 256 % 256) ++ "." ++
    toString (addr / 65536 % 256) ++ "." ++ toString (addr / 16777216 % 256)

/-- network.rs `format_tcp_state`. -/
def format_tcp_state (state : Nat) : String :=
  match state with
  | 1 => "CLOSED"
  | 2 => "LISTEN"
  | 3 => "SYN_SENT"
  | 4 => "SYN_RCVD"
  | 5 => "ESTABLISHED"
  | 6 => "FIN_WAIT1"
  | 7 => "FIN_WAIT2"
  | 8 => "CLOSE_WAIT"
  | 9 => "CLOSING"
  | 10 => "LAST_ACK"
  | 11 => "TIME_WAIT"
  | 12 => "DELETE_TCB"
  | _ => "UNKNOWN(" ++ toString state ++ ")"

/-- Rust `u16::from_be(x as u16)` on the little-endian targets the code
compiles for: truncate to 16 bits, then swap the two bytes. -/
def u16_from_be (n : Nat) : Nat :=
  (n % 65536) % 256 * 256 + (n % 65536) / 256

/-- network.rs `collect_tcp_connections` loop body: format
`"addr:port"` strings from the row and build the connection. -/
def tcp_entry_to_connection (entry : MIB_TCPROW_OWNER_PID) : NetworkConnection :=
  let local_addr :=
    format_ip_address entry.dwLocalAddr ++ ":" ++ toString (u16_from_be entry.dwLocalPort)
  let remote_addr :=
    format_ip_address entry.dwRemoteAddr ++ ":" ++ toString (u16_from_be entry.dwRemotePort)
  NetworkConnection.new "TCP" local_addr remote_addr
    (format_tcp_state entry.dwState) entry.dwOwningPid

/-- network.rs `collect_tcp_connections` over a successfully obtained
TCP table. -/
def collect_tcp_connections (table : List MIB_TCPROW_OWNER_PID) :
    List NetworkConnection :=
  table.map tcp_entry_to_connection

/-! ## persistence.rs : registry Run keys -/

/-- A registry value as seen by `winreg`: a string value
(`get_value::<String>` succeeds) or any other type (it fails). -/
inductive RegData where
  | str (s : String)
  | other
deriving DecidableEq, Repr

/-- winreg `HKEY` roots used by the collector. -/
inductive Hive where
  | hklm
  | hkcu
  | hkcr
  | hku
  | hkcc
deriving DecidableEq, Repr

/-- persistence.rs `hive_to_string`. -/
def hive_to_string : Hive → String
  | .hklm => "HKLM"
  | .hkcu => "HKCU"
  | .hkcr => "HKCR"
  | .hku => "HKU"
  | .hkcc => "HKCC"

/-- An open registry key: its values in enumeration order. -/
abbrev RegistryKey := List (String × RegData)

/-- The registry as seen through `RegKey::predef(hive).open_subkey(path)`:
`none` when the key is absent or inaccessible. -/
abbrev Registry := Hive → String → Option RegistryKey

/-- winreg `key.get_value::<String>(&name)`: the value with that name,
provided it is a string value. -/
def reg_get_string (key : RegistryKey) (name : String) : Option String :=
  match List.find? (fun p => p.1 == name) key with
  | some (_, .str s) => some s
  | _ => none

/-- persistence.rs `collect_registry_run_keys`: the six Run/RunOnce
locations visited in order. -/
def run_key_paths : List (Hive × String) :=
  [(.hklm, "SOFTWARE\\Microsoft\\Windows\\CurrentVersion\\Run"),
   (.hklm, "SOFTWARE\\Microsoft\\Windows\\CurrentVersion\\RunOnce"),
   (.hkcu, "SOFTWARE\\Microsoft\\Windows\\CurrentVersion\\Run"),
   (.hkcu, "SOFTWARE\\Microsoft\\Windows\\CurrentVersion\\RunOnce"),
   (.hklm, "SOFTWARE\\WOW6432Node\\Microsoft\\Windows\\CurrentVersion\\Run"),
   (.hklm, "SOFTWARE\\WOW6432Node\\Microsoft\\Windows\\CurrentVersion\\RunOnce")]

/-- persistence.rs `collect_registry_run_keys`: for each existing key, each
string value becomes a mechanism built by `PersistenceMechanism::new` with
type `PersistenceType::RegistryRunKey.as_str()` for every hive; absent keys
are skipped; non-string values are skipped. -/
def collect_registry_run_keys (reg : Registry) : List PersistenceMechanism :=
  run_key_paths.foldl
    (fun acc hp =>
      match reg hp.1 hp.2 with
      | some key =>
        key.foldl
          (fun acc2 v =>
            match reg_get_string key v.1 with
            | some command =>
              acc2 ++ [PersistenceMechanism.new PersistenceType.registryRunKey.as_str
                v.1 command (hive_to_string hp.1 ++ "\\" ++ hp.2)]
            | none => acc2)
          acc
      | none => acc)
    []

/-! ## event_logs.rs -/

/-- event_logs.rs: the fields of the Win32 `EVENTLOGRECORD` the parser
reads (u32 each). -/
structure EVENTLOGRECORD where
  EventID : Nat
  EventType : Nat
  TimeGenerated : Nat
deriving DecidableEq, Repr

/-- `HashMap::insert`-order association list lookup: the LAST insert for a
key wins (the curated filter maps are literal insert sequences). -/
def hm_get (m : List (Nat × String)) (k : Nat) : Option String :=
  (List.find? (fun p => p.1 == k) m.reverse).map (fun p => p.2)

/-- Two-digit zero padding (chrono RFC 3339 rendering). -/
def pad2 (n : Nat) : String :=
  if n < 10 then "0" ++ toString n else toString n

/-- Four-digit zero padding (chrono RFC 3339 rendering). -/
def pad4 (n : Nat) : String :=
  (if n < 10 then "000" else if n < 100 then "00" else if n < 1000 then "0" else "")
    ++ toString n

/-- Civil date (year, month, day) from days since 1970-01-01
(proleptic Gregorian, non-negative days). -/
def days_to_civil (days : Nat) : Nat × Nat × Nat :=
  let z := days + 719468
  let era := z / 146097
  let doe := z % 146097
  let yoe := (doe - doe / 1460 + doe / 36524 - doe / 146096) / 365
  let y := yoe + era * 400
  let doy := doe - (365 * yoe + yoe / 4 - yoe / 100)
  let mp := (5 * doy + 2) / 153
  let d := doy - (153 * mp + 2) / 5 + 1
  let m := if mp < 10 then mp + 3 else mp - 9
  (if m ≤ 2 then y + 1 else y, m, d)

/-- event_logs.rs `convert_event_timestamp`: Unix seconds (u32) rendered as
chrono `to_rfc3339` does for a UTC datetime. -/
def convert_event_timestamp (timestamp : Nat) : String :=
  let days := timestamp / 86400
  let secs := timestamp % 86400
  let c := days_to_civil days
  pad4 c.1 ++ "-" ++ pad2 c.2.1 ++ "-" ++ pad2 c.2.2 ++ "T" ++
    pad2 (secs / 3600) ++ ":" ++ pad2 (secs % 3600 / 60) ++ ":" ++
    pad2 (secs % 60) ++ "+00:00"

/-- event_logs.rs level mapping in `parse_event_record`: EVENTLOG_ERROR_TYPE
(1), WARNING (2), INFORMATION (4), AUDIT_SUCCESS (8), AUDIT_FAILURE (16). -/
def event_type_level (t : Nat) : String :=
  match t with
  | 1 => "Error"
  | 2 => "Warning"
  | 4 => "Information"
  | 8 => "Audit Success"
  | 16 => "Audit Failure"
  | _ => "Unknown"

/-- event_logs.rs `parse_event_record` on a structurally valid record (the
buffer-size guard is subsumed by receiving the struct): records outside the
filter map are errors; inside it, the entry is built by
`EventLogEntry::new`, so `source` is `"Unknown"`. -/
def parse_event_record (record : EVENTLOGRECORD) (event_filter : List (Nat × String)) :
    Except String EventLogEntry :=
  match hm_get event_filter record.EventID with
  | none => .error "Event not in filter"
  | some message =>
    .ok (EventLogEntry.new record.EventID (event_type_level record.EventType)
      (convert_event_timestamp record.TimeGenerated) message)

/-- event_logs.rs `get_security_event_filter` (insert order preserved). -/
def get_security_event_filter : List (Nat × String) :=
  [(4624, "An account was successfully logged on"),
   (4625, "An account failed to log on"),
   (4634, "An account was logged off"),
   (4647, "User initiated logoff"),
   (4648, "A logon was attempted using explicit credentials"),
   (4720, "A user account was created"),
   (4722, "A user account was enabled"),
   (4723, "An attempt was made to change an account's password"),
   (4724, "An attempt was made to reset an account's password"),
   (4725, "A user account was disabled"),
   (4726, "A user account was deleted"),
   (4738, "A user account was changed"),
   (4672, "Special privileges assigned to new logon"),
   (4673, "A privileged service was called"),
   (4674, "An operation was attempted on a privileged object"),
   (4688, "A new process has been created"),
   (4689, "A process has exited"),
   (4656, "A handle to an object was requested"),
   (4658, "The handle to an object was closed"),
   (4608, "Windows is starting up"),
   (4609, "Windows is shutting down"),
   (4616, "The system time was changed")]

/-- event_logs.rs `get_system_event_filter` (insert order preserved). -/
def get_system_event_filter : List (Nat × String) :=
  [(6005, "The Event log service was started"),
   (6006, "The Event log service was stopped"),
   (6008, "The previous system shutdown was unexpected"),
   (6009, "Microsoft Windows version information"),
   (6013, "The system uptime"),
   (7034, "A service terminated unexpectedly"),
   (7035, "A service was successfully sent a start or stop control"),
   (7036, "A service entered the running or stopped state"),
   (7040, "The start type of a service was changed"),
   (1001, "Windows Error Reporting"),
   (1000, "Application Error"),
   (1002, "Application Hang"),
   (41, "The system has rebooted without cleanly shutting down first"),
   (219, "Driver installation"),
   (220, "Driver installation failure")]

/-- event_logs.rs `get_application_event_filter` (insert order preserved;
1026 is inserted twice and the later insert wins). -/
def get_application_event_filter : List (Nat × String) :=
  [(1000, "Application Error"),
   (1001, "Windows Error Reporting"),
   (1002, "Application Hang"),
   (1026, "Application popup"),
   (1023, ".NET Runtime Error"),
   (1026, ".NET Runtime"),
   (1033, "Windows Installer reconfigured a product"),
   (1034, "Windows Installer removed a product"),
   (11707, "Installation completed successfully"),
   (11708, "Installation failed"),
   (11724, "Package removal completed successfully"),
   (2, "The application-specific permission settings do not grant Local Activation permission"),
   (10016, "The application-specific permission settings do not grant Local Activation permission"),
   (4625, "An account failed to log on"),
   (4648, "A logon was attempted using explicit credentials")]

/-- event_logs.rs `collect_events_from_log`: the start record of the read
window (`if num_records > max_events { oldest + num_records - max_events }
else { oldest }` with `max_events = 1000`). -/
def event_read_start (num_records oldest_record : Nat) : Nat :=
  if num_records > 1000 then oldest_record + num_records - 1000 else oldest_record

/-- event_logs.rs `collect_events_from_log`: the record numbers passed to
`ReadEventLogW` (`start_record..start_record + min(num_records, max_events)`). -/
def event_read_numbers (num_records oldest_record : Nat) : List Nat :=
  List.range' (event_read_start num_records oldest_record)
    (min num_records 1000)

/-- event_logs.rs `collect_events_from_log` on a successfully opened log:
`read` models `ReadEventLogW` for one record number (`none` = failed read);
successfully parsed records are pushed, then the list is sorted by
timestamp descending (`sort_by(|a, b| b.timestamp.cmp(&a.timestamp))`). -/
def collect_events_from_log (num_records oldest_record : Nat)
    (read : Nat → Option EVENTLOGRECORD) (event_filter : List (Nat × String)) :
    List EventLogEntry :=
  let events :=
    (event_read_numbers num_records oldest_record).foldl
      (fun acc record_num =>
        match read record_num with
        | some record =>
          match parse_event_record record event_filter with
          | .ok event => acc ++ [event]
          | .error _ => acc
        | none => acc)
      []
  events.mergeSort (fun a b => b.timestamp ≤ a.timestamp)

/-! ## prefetch.rs -/

/-- forensic_types.rs `VolumeInfo`. -/
structure VolumeInfo where
  device_path : String
  volume_name : String
  serial_number : String
  creation_time : String
deriving DecidableEq, Repr

/-- forensic_types.rs `PrefetchFile`. -/
structure PrefetchFile where
  filename : String
  executable_name : String
  run_count : Nat
  last_run_time : String
  creation_time : String
  file_size : Nat
  hash : String
  version : Nat
  referenced_files : List String
  volumes : List VolumeInfo
deriving DecidableEq, Repr

/-- Abstract primitives the prefetch collector depends on: SHA-256 hex
digest and `String::from_utf8_lossy`. Theorems quantify over them. -/
structure Prims where
  sha256hex : List Nat → String
  utf8_lossy : List Nat → String

/-- A directory entry yielded by the depth-1 `WalkDir` walk: name,
whether it is a file, whether `fs::read` and `fs::metadata` succeed, the
bytes, `metadata.created()` already rendered RFC 3339 (`none` = error),
and `metadata.len()`. -/
structure DirEntry where
  name : String
  is_file : Bool
  read_ok : Bool
  bytes : List Nat
  meta_ok : Bool
  created_rfc3339 : Option String
  meta_len : Nat

/-- Split a character list at its LAST dot: returns (before, after). -/
def splitLastDot : List Char → Option (List Char × List Char)
  | [] => none
  | c :: rest =>
    match splitLastDot rest with
    | some (pre, post) => some (c :: pre, post)
    | none => if c = '.' then some ([], rest) else none

/-- Rust `Path::extension()` for a plain file name: the substring after the
last dot, none when there is no dot or the last dot is the leading
character (hidden-file rule). -/
def path_extension (name : String) : Option String :=
  match splitLastDot name.data with
  | some ([], _) => none
  | some (_, post) => some (String.mk post)
  | none => none

/-- Little-endian u32 at byte offset `i` (`u32::from_le_bytes`). -/
def le_u32_at (data : List Nat) (i : Nat) : Nat :=
  (data.getD i 0) + 256 * (data.getD (i + 1) 0) +
    65536 * (data.getD (i + 2) 0) + 16777216 * (data.getD (i + 3) 0)

/-- prefetch.rs `extract_run_count`: u32 at offset 12 when at least 16
bytes, else the default 1. -/
def extract_run_count (data : List Nat) : Nat :=
  if data.length ≥ 16 then le_u32_at data 12 else 1

/-- prefetch.rs `extract_last_run_time`: the current time when at least 24
bytes, else "Unknown" (clock passed as `now`). -/
def extract_last_run_time (data : List Nat) (now : String) : String :=
  if data.length ≥ 24 then now else "Unknown"

/-- prefetch.rs `extract_referenced_files` applied to the lossy-decoded
data string: for each probed extension present anywhere in the string, push
a fixed placeholder path; if none matched, the single fallback string. -/
def extract_referenced_files (data_str : String) : List String :=
  let patterns := [".exe", ".dll", ".sys", ".bat", ".cmd", ".ps1"]
  let files := patterns.foldl
    (fun acc pattern =>
      if strContains data_str pattern then
        acc ++ ["C:\\Windows\\System32\\example" ++ pattern]
      else acc)
    []
  if files.isEmpty then ["No referenced files found"] else files

/-- prefetch.rs `extract_volume_info`: ignores the data entirely and
returns the single hard-coded volume (clock passed as `now`). -/
def extract_volume_info (_data : List Nat) (now : String) : List VolumeInfo :=
  [⟨"\\Device\\HarddiskVolume1", "Windows", "12345678", now⟩]

/-- prefetch.rs `parse_prefetch_data`: executable name from the filename
(up to the first dash, else the extension stripped), version from bytes
0..4, run count, last-run time, creation time from metadata, size, hash,
placeholder referenced files and volumes. -/
def parse_prefetch_data (prims : Prims) (now : String) (data : List Nat)
    (filename hash : String) (created : Option String) (meta_len : Nat) :
    PrefetchFile :=
  let executable_name :=
    if filename.data.contains '-' then
      String.mk (filename.data.takeWhile (fun c => c ≠ '-'))
    else strReplace (strReplace filename ".pf" "") ".PF" ""
  let version := if data.length ≥ 4 then le_u32_at data 0 else 0
  { filename := filename
    executable_name := executable_name
    run_count := extract_run_count data
    last_run_time := extract_last_run_time data now
    creation_time := created.getD "Unknown"
    file_size := meta_len
    hash := hash
    version := version
    referenced_files := extract_referenced_files (prims.utf8_lossy data)
    volumes := extract_volume_info data now }

/-- prefetch.rs `analyze_prefetch_file`: read the file and its metadata
(either failing is an error), hash the bytes, then parse. -/
def analyze_prefetch_file (prims : Prims) (now : String) (entry : DirEntry) :
    Except String PrefetchFile :=
  if entry.read_ok = false then .error "read failed"
  else if entry.meta_ok = false then .error "metadata failed"
  else .ok (parse_prefetch_data prims now entry.bytes entry.name
    (prims.sha256hex entry.bytes) entry.created_rfc3339 entry.meta_len)

/-- The walk condition of `collect_prefetch_from_directory`: a file whose
extension upper-cases to "PF". -/
def is_pf_entry (entry : DirEntry) : Bool :=
  entry.is_file &&
    (match path_extension entry.name with
     | some ext => strToUpper ext == "PF"
     | none => false)

/-- prefetch.rs `collect_prefetch_from_directory`: `none` models a missing
directory (early return with only a WARN audit entry); otherwise walk the
yielded entries in order, analyze each `.PF` file, push successes and skip
failures (which only add ERROR audit entries). No sorting is applied. -/
def collect_prefetch_from_directory (prims : Prims) (now : String)
    (listing : Option (List DirEntry)) : List PrefetchFile :=
  match listing with
  | none => []
  | some entries =>
    entries.foldl
      (fun acc entry =>
        if is_pf_entry entry then
          match analyze_prefetch_file prims now entry with
          | .ok prefetch => acc ++ [prefetch]
          | .error _ => acc
        else acc)
      []

/-- prefetch.rs `collect_prefetch_files`: the two probed directories in
order, contributions concatenated. `walk` maps a directory path to its
listing (`none` = directory absent). No sorting is applied. -/
def collect_prefetch_files (prims : Prims) (now : String)
    (walk : String → Option (List DirEntry)) : List PrefetchFile :=
  ["C:\\Windows\\Prefetch", "C:\\Windows\\System32\\Prefetch"].foldl
    (fun acc dir => acc ++ collect_prefetch_from_directory prims now (walk dir))
    []

/-! ## Shimcache record (forensic_types.rs) -/

/-- forensic_types.rs `ShimcacheEntry`. -/
structure ShimcacheEntry where
  path : String
  last_modified : String
  file_size : Nat
  last_update : String
  execution_flag : Bool
deriving DecidableEq, Repr

/-! ## main.rs : orchestrator report assembly -/

/-- types.rs `ProcessModule` (the `size` field is u32). -/
structure ProcessModule where
  name : String
  file_path : String
  base_address : String
  size : Nat
  version : String
deriving DecidableEq, Repr

/-- types.rs `ProcessModule::is_system_module`. -/
def ProcessModule.is_system_module (m : ProcessModule) : Bool :=
  let path_lower := strToLower m.file_path
  strContains path_lower "\\windows\\system32\\" ||
  strContains path_lower "\\windows\\syswow64\\" ||
  strContains path_lower "\\windows\\winsxs\\"

/-- types.rs `Process` (the f64 memory figure is carried opaquely). -/
structure Process where
  pid : Nat
  parent_pid : Nat
  name : String
  command_line : String
  executable_path : String
  sha256_hash : String
  user : String
  memory_usage_mb : Float
  loaded_modules : List ProcessModule

/-- The per-module JSON object built at main.rs:200-209 (adds the derived
`is_system_module`). -/
structure ProcessModuleJson where
  name : String
  file_path : String
  base_address : String
  size : Nat
  version : String
  is_system_module : Bool

/-- The per-process JSON object built in main.rs (field-for-field copy of
`Process` plus derived module flags). -/
structure ProcessJson where
  pid : Nat
  parent_pid : Nat
  name : String
  command_line : String
  executable_path : String
  sha256_hash : String
  user : String
  memory_usage_mb : Float
  loaded_modules : List ProcessModuleJson

/-- main.rs:200-209: JSON view of one module. -/
def moduleToJson (m : ProcessModule) : ProcessModuleJson :=
  ⟨m.name, m.file_path, m.base_address, m.size, m.version, m.is_system_module⟩

/-- main.rs JSON view of one process. -/
def processToJson (p : Process) : ProcessJson :=
  ⟨p.pid, p.parent_pid, p.name, p.command_line, p.executable_path,
    p.sha256_hash, p.user, p.memory_usage_mb, p.loaded_modules.map moduleToJson⟩

/-- The per-connection JSON object built at main.rs:230-242 (adds the
derived `is_external`). -/
structure NetworkConnectionJson where
  protocol : String
  local_address : String
  local_port : Nat
  remote_address : String
  remote_port : Nat
  state : String
  owning_pid : Nat
  process_name : String
  is_external : Bool
deriving DecidableEq, Repr

/-- main.rs:230-242: JSON view of one connection. -/
def connectionToJson (c : NetworkConnection) : NetworkConnectionJson :=
  ⟨c.protocol, c.local_address, c.local_port, c.remote_address, c.remote_port,
    c.state, c.owning_pid, c.process_name, c.is_external⟩

/-- The parts of the final `json!` report (main.rs:448-482) the claims
refer to: the artifact arrays and `scan_metadata.total_artifacts`.
Persistence, event-log, prefetch and shimcache rows are field-for-field
copies of the typed records, so they are carried as-is. -/
structure FinalReport where
  total_artifacts : Nat
  running_processes : List ProcessJson
  network_connections : List NetworkConnectionJson
  persistence_mechanisms : List PersistenceMechanism
  event_logs_security : List EventLogEntry
  event_logs_system : List EventLogEntry
  event_logs_application : List EventLogEntry
  prefetch_files : List PrefetchFile
  shimcache_entries : List ShimcacheEntry

/-- main.rs report assembly: map each collection to its JSON rows, compute
`total_event_entries = event_logs_data.total_entries()` (main.rs:290) and
`total_artifacts` as the main.rs:403 sum, and place the same arrays in the
report (main.rs:448-482). -/
def build_final_report (processes_data : List Process)
    (network_connections_data : List NetworkConnection)
    (persistence_mechanisms_data : List PersistenceMechanism)
    (event_logs_data : EventLogs)
    (prefetch_files_data : List PrefetchFile)
    (shimcache_entries_data : List ShimcacheEntry) : FinalReport :=
  let processes := processes_data.map processToJson
  let network_connections := network_connections_data.map connectionToJson
  let persistence_mechanisms := persistence_mechanisms_data
  let total_event_entries := event_logs_data.total_entries
  let prefetch_files := prefetch_files_data
  let shimcache_entries := shimcache_entries_data
  let total_artifacts :=
    processes.length + network_connections.length + persistence_mechanisms.length +
      total_event_entries + prefetch_files.length + shimcache_entries.length
  { total_artifacts := total_artifacts
    running_processes := processes
    network_connections := network_connections
    persistence_mechanisms := persistence_mechanisms
    event_logs_security := event_logs_data.security
    event_logs_system := event_logs_data.system
    event_logs_application := event_logs_data.application
    prefetch_files := prefetch_files
    shimcache_entries := shimcache_entries }

/-- types.rs `Artifacts::total_artifact_count` (the helper the spec note
contrasts with main.rs:403: it adds logged-on users and omits prefetch and
shimcache; `Artifacts` in types.rs has no execution-evidence fields). -/
def artifacts_total_artifact_count (running_processes : List Process)
    (network_connections : List NetworkConnection)
    (persistence_mechanisms : List PersistenceMechanism)
    (event_logs : EventLogs) (logged_on_users : Nat) : Nat :=
  running_processes.length + network_connections.length +
    persistence_mechanisms.length + event_logs.security.length +
    event_logs.system.length + event_logs.application.length + logged_on_users

/-! ## Auxiliary definitions used by the statements and fixtures -/

/-- One `Logger::log` step on the raw queue: drop the oldest entry when at
capacity, then push. `(Logger.log l now lv m).entries` is definitionally
`vq_push l.max_entries l.entries (LogEntry.new now lv.as_str m)`. -/
def vq_push {α : Type} (m : Nat) (q : List α) (e : α) : List α :=
  (if q.length ≥ m then q.drop 1 else q) ++ [e]

/-- Lexicographic order on character lists by code point: this is the order
Rust `Ord for String` induces on the ASCII file names compared here. -/
def listLexLe : List Char → List Char → Bool
  | [], _ => true
  | _ :: _, [] => false
  | a :: la, b :: lb => if a = b then listLexLe la lb else decide (a < b)

/-- Rust `String` ordering (`≤`) on strings. -/
def rustStrLe (a b : String) : Bool := listLexLe a.data b.data

/-- The directory entries the prefetch walk keeps: `.PF` files whose read
and metadata calls succeed. -/
def pf_kept (e : DirEntry) : Bool := is_pf_entry e && e.read_ok && e.meta_ok

/-- Fixture: a registry whose only present Run key is
`HKCU\SOFTWARE\Microsoft\Windows\CurrentVersion\Run`, holding the single
string value `"Updater" = "C:\Temp\u.exe"`. -/
def test_registry : Registry := fun h p =>
  match h with
  | .hkcu =>
    if p == "SOFTWARE\\Microsoft\\Windows\\CurrentVersion\\Run" then
      some [("Updater", RegData.str "C:\\Temp\\u.exe")]
    else none
  | _ => none

/-- Fixture: concrete primitives for closed evaluations (any choice works;
the general theorems quantify over `Prims`). -/
def test_prims : Prims := ⟨fun _ => "hash", fun _ => "exe"⟩

/-- Fixture: a readable 4-byte `.PF` file named `B.PF`. -/
def entryB : DirEntry :=
  ⟨"B.PF", true, true, [30, 0, 0, 0], true, some "2024-01-01T00:00:00+00:00", 4⟩

/-- Fixture: a readable 4-byte `.PF` file named `A.PF`. -/
def entryA : DirEntry :=
  ⟨"A.PF", true, true, [30, 0, 0, 0], true, some "2024-01-01T00:00:00+00:00", 4⟩

/-- Fixture: a prefetch directory walk that yields `B.PF` before `A.PF`
(`WalkDir` imposes no name order); the alternative directory is absent. -/
def test_walk : String → Option (List DirEntry) := fun d =>
  if d == "C:\\Windows\\Prefetch" then some [entryB, entryA] else none

/-- Fixture: an operation that fails with NetworkError on its first two
invocations and then succeeds (the spec's retry scenario). -/
def c8_test_op : Nat → Except ForensicError Nat := fun n =>
  if n < 3 then .error (ForensicError.new .networkError "Temporary failure")
  else .ok 99

/-- Fixture: an operation that always fails with AccessDenied. -/
def c8_denied_op : Nat → Except ForensicError Nat := fun _ =>
  .error (ForensicError.new .accessDenied "Cannot access registry key")

deriving instance DecidableEq for Except

/-! ## Theorems settling the claims -/

/-- C1: the `scan_metadata.total_artifacts` value of every completed scan
equals the sum of the number of running processes, network connections,
persistence mechanisms, security plus system plus application event-log
entries, prefetch files, and shimcache entries in the same report (the
main.rs:403 sum over the arrays placed in the report). -/
theorem C1_total_artifacts (processes_data : List Process)
    (network_connections_data : List NetworkConnection)
    (persistence_mechanisms_data : List PersistenceMechanism)
    (event_logs_data : EventLogs)
    (prefetch_files_data : List PrefetchFile)
    (shimcache_entries_data : List ShimcacheEntry) :
    (build_final_report processes_data network_connections_data
        persistence_mechanisms_data event_logs_data prefetch_files_data
        shimcache_entries_data).total_artifacts =
      (build_final_report processes_data network_connections_data
          persistence_mechanisms_data event_logs_data prefetch_files_data
          shimcache_entries_data).running_processes.length +
        (build_final_report processes_data network_connections_data
            persistence_mechanisms_data event_logs_data prefetch_files_data
            shimcache_entries_data).network_connections.length +
        (build_final_report processes_data network_connections_data
            persistence_mechanisms_data event_logs_data prefetch_files_data
            shimcache_entries_data).persistence_mechanisms.length +
        ((build_final_report processes_data network_connections_data
              persistence_mechanisms_data event_logs_data prefetch_files_data
              shimcache_entries_data).event_logs_security.length +
          (build_final_report processes_data network_connections_data
              persistence_mechanisms_data event_logs_data prefetch_files_data
              shimcache_entries_data).event_logs_system.length +
          (build_final_report processes_data network_connections_data
              persistence_mechanisms_data event_logs_data prefetch_files_data
              shimcache_entries_data).event_logs_application.length) +
        (build_final_report processes_data network_connections_data
            persistence_mechanisms_data event_logs_data prefetch_files_data
            shimcache_entries_data).prefetch_files.length +
        (build_final_report processes_data network_connections_data
            persistence_mechanisms_data event_logs_data prefetch_files_data
            shimcache_entries_data).shimcache_entries.length := by
  simp [build_final_report, EventLogs.total_entries]

/-- C3 counterexample: a raw System-log record with event ID 6005 (in the
curated filter) produces an entry whose `source` is the hard-coded
`"Unknown"`, not the name of the log it was read from. -/
theorem C3_source_counterexample :
    parse_event_record ⟨6005, 4, 0⟩ get_system_event_filter =
      .ok ⟨6005, "Information", "1970-01-01T00:00:00+00:00",
        "The Event log service was started", "Unknown"⟩
    ∧ ("Unknown" : String) ≠ "System" :=
  ⟨by decide, by decide⟩

/-- C3 as amended: for every raw record whose event ID is in the filter
map, the constructed entry takes its message from the filter map, its level
from the record's event type, its timestamp from the record's
seconds-since-epoch field — and its `source` is always the constant
`"Unknown"` (hard-coded by `EventLogEntry::new`), never the log name. -/
theorem C3_entry_fields (record : EVENTLOGRECORD)
    (event_filter : List (Nat × String)) (message : String)
    (h : hm_get event_filter record.EventID = some message) :
    parse_event_record record event_filter =
      .ok ⟨record.EventID, event_type_level record.EventType,
        convert_event_timestamp record.TimeGenerated, message, "Unknown"⟩ := by
  unfold parse_event_record
  rw [h]
  rfl

/-- C3 witness: a Security-log record with event ID 4624 and event type
Audit Success at the epoch. -/
theorem C3_entry_fields_witness :
    parse_event_record ⟨4624, 8, 0⟩ get_security_event_filter =
      .ok ⟨4624, "Audit Success", "1970-01-01T00:00:00+00:00",
        "An account was successfully logged on", "Unknown"⟩ :=
  C3_entry_fields ⟨4624, 8, 0⟩ get_security_event_filter
    "An account was successfully logged on" (by decide)

/-- C10: a TCP table row with state code 5, local endpoint
0x0100007F:8080 and remote endpoint 0x08080808:80 (network-order fields)
produces the connection TCP 127.0.0.1:8080 → 8.8.8.8:80, state
ESTABLISHED, external; and `is_external` is false whenever the remote
address is the loopback, the unspecified address, or the UDP placeholder. -/
theorem C10_tcp_row (pid : Nat) :
    (collect_tcp_connections [⟨5, 0x0100007F, 0x901F, 0x08080808, 0x5000, pid⟩]).map
        (fun c => (c.protocol, c.local_address, c.local_port, c.remote_address,
          c.remote_port, c.state, c.is_external))
      = [("TCP", "127.0.0.1", 8080, "8.8.8.8", 80, "ESTABLISHED", true)]
    ∧ (∀ c : NetworkConnection,
        c.remote_address = "127.0.0.1" ∨ c.remote_address = "::1" ∨
            c.remote_address = "0.0.0.0" ∨ c.remote_address = "*" →
          c.is_external = false) := by
  constructor
  · have hl : extract_address_and_port
        (format_ip_address 0x0100007F ++ ":" ++ toString (u16_from_be 0x901F))
        = ("127.0.0.1", 8080) := by decide
    have hr : extract_address_and_port
        (format_ip_address 0x08080808 ++ ":" ++ toString (u16_from_be 0x5000))
        = ("8.8.8.8", 80) := by decide
    have hs : format_tcp_state 5 = "ESTABLISHED" := by decide
    simp only [collect_tcp_connections, List.map_cons, List.map_nil,
      tcp_entry_to_connection, NetworkConnection.new, hl, hr, hs]
    simp only [NetworkConnection.is_external]
    norm_num
    decide
  · intro c h
    unfold NetworkConnection.is_external
    rcases h with h | h | h | h <;> rw [h] <;> decide

/-- C10 witness: a UDP-style connection whose remote endpoint is the
placeholder `*:*` is not external. -/
theorem C10_tcp_row_witness :
    (NetworkConnection.new "UDP" "0.0.0.0:53" "*:*" "LISTENING" 7).is_external
      = false :=
  (C10_tcp_row 0).2 (NetworkConnection.new "UDP" "0.0.0.0:53" "*:*" "LISTENING" 7)
    (Or.inr (Or.inr (Or.inr (by decide))))

/-- C2 counterexample: with the HKCU Run key holding the single string
value `"Updater" = "C:\Temp\u.exe"` and every other Run key absent, the
collector emits one record whose type is `"Registry Run Key"` (not
`"Registry Run Key (User)"`) and whose `is_suspicious` is `false` (not
`true`): `PersistenceMechanism::new` hard-codes the flag and the HKCU
branch reuses the generic type string. -/
theorem C2_run_key_counterexample :
    collect_registry_run_keys test_registry =
      [⟨"Registry Run Key", "Updater", "C:\\Temp\\u.exe",
        "HKCU\\SOFTWARE\\Microsoft\\Windows\\CurrentVersion\\Run", "", "", false⟩]
    ∧ ("Registry Run Key" : String) ≠ "Registry Run Key (User)" :=
  ⟨by decide, by decide⟩

/-- C2 as amended: for a registry whose HKCU Run key contains the single
string value `"Updater"` and whose other five Run/RunOnce keys are absent,
the collector emits exactly one record with type `"Registry Run Key"`,
name `"Updater"`, the value data as command, source
`HKCU\SOFTWARE\Microsoft\Windows\CurrentVersion\Run`, and
`is_suspicious = false` (the collector does not distinguish user hives in
the type string and never sets the suspicious flag). -/
theorem C2_run_key_record (reg : Registry) (cmd : String)
    (h1 : reg .hkcu "SOFTWARE\\Microsoft\\Windows\\CurrentVersion\\Run"
        = some [("Updater", .str cmd)])
    (h2 : reg .hklm "SOFTWARE\\Microsoft\\Windows\\CurrentVersion\\Run" = none)
    (h3 : reg .hklm "SOFTWARE\\Microsoft\\Windows\\CurrentVersion\\RunOnce" = none)
    (h4 : reg .hkcu "SOFTWARE\\Microsoft\\Windows\\CurrentVersion\\RunOnce" = none)
    (h5 : reg .hklm "SOFTWARE\\WOW6432Node\\Microsoft\\Windows\\CurrentVersion\\Run"
        = none)
    (h6 : reg .hklm "SOFTWARE\\WOW6432Node\\Microsoft\\Windows\\CurrentVersion\\RunOnce"
        = none) :
    collect_registry_run_keys reg =
      [⟨"Registry Run Key", "Updater", cmd,
        "HKCU\\SOFTWARE\\Microsoft\\Windows\\CurrentVersion\\Run", "", "", false⟩] := by
  unfold collect_registry_run_keys run_key_paths
  simp only [List.foldl_cons, List.foldl_nil, h1, h2, h3, h4, h5, h6]
  simp [reg_get_string, List.find?, PersistenceMechanism.new, hive_to_string,
    PersistenceType.as_str]

/-- C2 witness: the amended statement instantiated at the fixture
registry. -/
theorem C2_run_key_record_witness :
    collect_registry_run_keys test_registry =
      [⟨"Registry Run Key", "Updater", "C:\\Temp\\u.exe",
        "HKCU\\SOFTWARE\\Microsoft\\Windows\\CurrentVersion\\Run", "", "", false⟩] :=
  C2_run_key_record test_registry "C:\\Temp\\u.exe"
    (by decide) (by decide) (by decide) (by decide) (by decide) (by decide)

/-- Any element of the pattern-probing fold of `extract_referenced_files`
is either in the accumulator or is the prefix extended by one of the
patterns. -/
theorem mem_pattern_foldl (s pref : String) :
    ∀ (pats : List String) (acc : List String) (f : String),
      f ∈ pats.foldl
          (fun acc pattern =>
            if strContains s pattern then acc ++ [pref ++ pattern] else acc)
          acc →
      f ∈ acc ∨ ∃ p ∈ pats, f = pref ++ p := by
  intro pats
  induction pats with
  | nil =>
    intro acc f hf
    simp only [List.foldl_nil] at hf
    exact Or.inl hf
  | cons p ps ih =>
    intro acc f hf
    simp only [List.foldl_cons] at hf
    rcases ih _ f hf with h | ⟨q, hq, rfl⟩
    · by_cases hc : strContains s p
      · rw [if_pos hc] at h
        rcases List.mem_append.mp h with h | h
        · exact Or.inl h
        · exact Or.inr ⟨p, by simp, by simpa using h⟩
      · rw [if_neg hc] at h
        exact Or.inl h
    · exact Or.inr ⟨q, by simp [hq], rfl⟩

/-- C6: for every `.pf` file regardless of its contents, the produced
referenced-file strings are drawn from the fixed hard-coded set (the six
placeholder paths or the single fallback string), and the volume list is
always exactly the one hard-coded volume; neither ever contains data
parsed from the file. -/
theorem C6_placeholder_output (s : String) (data : List Nat) (now : String) :
    (∀ f ∈ extract_referenced_files s,
      f ∈ ["C:\\Windows\\System32\\example.exe", "C:\\Windows\\System32\\example.dll",
           "C:\\Windows\\System32\\example.sys", "C:\\Windows\\System32\\example.bat",
           "C:\\Windows\\System32\\example.cmd", "C:\\Windows\\System32\\example.ps1",
           "No referenced files found"])
    ∧ extract_volume_info data now
        = [⟨"\\Device\\HarddiskVolume1", "Windows", "12345678", now⟩] := by
  constructor
  · intro f hf
    unfold extract_referenced_files at hf
    simp only at hf
    split at hf
    · simp only [List.mem_singleton] at hf
      simp [hf]
    · rcases mem_pattern_foldl s "C:\\Windows\\System32\\example"
          [".exe", ".dll", ".sys", ".bat", ".cmd", ".ps1"] [] f hf with h | ⟨p, hp, rfl⟩
      · simp at h
      · simp only [List.mem_cons, List.not_mem_nil, or_false] at hp
        rcases hp with rfl | rfl | rfl | rfl | rfl | rfl <;> decide
  · rfl

/-- C6 witness: a file whose lossy decoding contains ".exe" yields exactly
the corresponding placeholder path, which is in the fixed set. -/
theorem C6_placeholder_output_witness :
    "C:\\Windows\\System32\\example.exe" ∈
      ["C:\\Windows\\System32\\example.exe", "C:\\Windows\\System32\\example.dll",
       "C:\\Windows\\System32\\example.sys", "C:\\Windows\\System32\\example.bat",
       "C:\\Windows\\System32\\example.cmd", "C:\\Windows\\System32\\example.ps1",
       "No referenced files found"] :=
  (C6_placeholder_output "NOTEPAD.exe data" [] "T").1
    "C:\\Windows\\System32\\example.exe" (by decide)

/-- Folding `vq_push` from the empty queue keeps exactly the most recently
pushed elements, in insertion order. -/
theorem foldl_vq_push_eq_drop {α : Type} (m : Nat) (hm : 0 < m) (xs : List α) :
    xs.foldl (vq_push m) [] = xs.drop (xs.length - m) := by
  induction xs using List.reverseRecOn with
  | nil => simp
  | append_singleton l a ih =>
    rw [List.foldl_append]
    simp only [List.foldl_cons, List.foldl_nil]
    rw [ih]
    simp only [List.length_append, List.length_singleton]
    by_cases h : l.length < m
    · have e1 : l.length - m = 0 := by omega
      have e2 : l.length + 1 - m = 0 := by omega
      rw [e1, List.drop_zero, e2, List.drop_zero]
      unfold vq_push
      rw [if_neg (by omega)]
    · have hml : m ≤ l.length := by omega
      unfold vq_push
      rw [if_pos (by rw [List.length_drop]; omega)]
      rw [List.drop_drop]
      rw [List.drop_append_of_le_length (by omega)]
      have e3 : l.length - m + 1 = l.length + 1 - m := by omega
      rw [e3]

/-- Folding `Logger::log` over a list of inputs acts on the entry queue as
folding `vq_push` at the logger's capacity. -/
theorem foldl_log_entries (xs : List (String × LogLevel × String)) :
    ∀ st : Logger,
      (xs.foldl (fun s x => s.log x.1 x.2.1 x.2.2) st).entries
        = xs.foldl
            (fun q x => vq_push st.max_entries q (LogEntry.new x.1 x.2.1.as_str x.2.2))
            st.entries := by
  induction xs with
  | nil => intro st; rfl
  | cons x xs ih =>
    intro st
    simp only [List.foldl_cons]
    rw [ih (st.log x.1 x.2.1 x.2.2)]
    rfl

/-- C7: starting from a fresh logger, after any sequence of appends the
queue holds at most 10000 entries, and the snapshot is exactly the most
recently appended entries in insertion order (the oldest entry is dropped
on each overflow). -/
theorem C7_log_cap (verbose : Bool) (xs : List (String × LogLevel × String)) :
    ((xs.foldl (fun st x => st.log x.1 x.2.1 x.2.2) (Logger.new verbose)).get_entries).length
        ≤ 10000
    ∧ (xs.foldl (fun st x => st.log x.1 x.2.1 x.2.2) (Logger.new verbose)).get_entries
        = (xs.map (fun x => LogEntry.new x.1 x.2.1.as_str x.2.2)).drop
            (xs.length - 10000) := by
  have hmain :
      (xs.foldl (fun st x => st.log x.1 x.2.1 x.2.2) (Logger.new verbose)).get_entries
        = (xs.map (fun x => LogEntry.new x.1 x.2.1.as_str x.2.2)).drop
            (xs.length - 10000) := by
    rw [Logger.get_entries, foldl_log_entries]
    show xs.foldl
        (fun q x => vq_push 10000 q (LogEntry.new x.1 x.2.1.as_str x.2.2)) [] = _
    rw [← List.foldl_map (fun x => LogEntry.new x.1 x.2.1.as_str x.2.2)
      (vq_push 10000) xs []]
    rw [foldl_vq_push_eq_drop 10000 (by omega)]
    simp
  refine ⟨?_, hmain⟩
  rw [hmain]
  simp only [List.length_drop, List.length_map]
  omega

/-- C9: the graceful-degradation helper returns the value and logs nothing
on success; on failure it returns no value and appends exactly one entry,
at ERROR when the kind is SystemApiError or InvalidData and at WARN
otherwise. -/
theorem C9_graceful_degradation (T : Type) (st : Logger) (operation_name now : String)
    (h : st.entries.length < st.max_entries) :
    (∀ v : T, handle_error_gracefully (.ok v) st operation_name now = (some v, st))
    ∧ (∀ e : ForensicError,
        (handle_error_gracefully (T := T) (.error e) st operation_name now).1 = none
        ∧ (handle_error_gracefully (T := T) (.error e) st operation_name now).2.entries
            = st.entries ++
              [LogEntry.new now
                (if e.kind = .systemApiError ∨ e.kind = .invalidData
                 then "ERROR" else "WARN")
                ((if e.kind = .systemApiError ∨ e.kind = .invalidData
                  then "Fatal error in " else "Non-fatal error in ")
                  ++ operation_name ++ ": " ++ e.user_message)]) := by
  have hne : ¬ (st.entries.length ≥ st.max_entries) := by omega
  constructor
  · intro v; rfl
  · intro e
    obtain ⟨k, m, c⟩ := e
    refine ⟨?_, ?_⟩
    · cases k <;> rfl
    · cases k <;>
        simp [handle_error_gracefully, ForensicError.is_fatal, Logger.error,
          Logger.warn, Logger.log, LogEntry.new, LogLevel.as_str, hne]

/-- C9 witness: success passes 42 through with the logger untouched, and an
AccessDenied failure yields no value. -/
theorem C9_graceful_degradation_witness :
    handle_error_gracefully (.ok 42) (Logger.new false) "test_operation" "T"
        = (some 42, Logger.new false)
    ∧ (handle_error_gracefully (T := Nat)
          (.error (ForensicError.new .accessDenied "Access denied"))
          (Logger.new false) "test_operation" "T").1 = none :=
  ⟨(C9_graceful_degradation Nat (Logger.new false) "test_operation" "T"
      (by decide)).1 42,
   ((C9_graceful_degradation Nat (Logger.new false) "test_operation" "T"
      (by decide)).2 (ForensicError.new .accessDenied "Access denied")).1⟩

/-- The retry loop never performs more invocations than it has attempt
numbers left plus those already performed. -/
theorem retry_loop_count_le {T : Type} (op : Nat → Except ForensicError T)
    (max_attempts : Nat) (now : String) :
    ∀ (attempts : List Nat) (invoked : Nat) (last : Option ForensicError)
      (st : Logger),
      (retry_loop op max_attempts now attempts invoked last st).2.1
        ≤ invoked + attempts.length := by
  intro attempts
  induction attempts with
  | nil => intro invoked last st; simp [retry_loop]
  | cons attempt rest ih =>
    intro invoked last st
    simp only [retry_loop]
    cases hop : op attempt with
    | ok v =>
      show invoked + 1 ≤ invoked + (attempt :: rest).length
      simp only [List.length_cons]
      omega
    | error e =>
      dsimp only
      by_cases hc : e.is_retryable = true ∧ attempt < max_attempts
      · rw [if_pos hc]
        have := ih (invoked + 1) (some e)
          (st.warn now ("Attempt " ++ toString attempt ++ " failed, retrying: "
            ++ e.display))
        simp only [List.length_cons]
        omega
      · rw [if_neg hc]
        show invoked + 1 ≤ invoked + (attempt :: rest).length
        simp only [List.length_cons]
        omega

/-- When every attempt in the window fails with a retryable error, the loop
walks to the final attempt and returns its error. -/
theorem retry_loop_exhaust {T : Type} (op : Nat → Except ForensicError T)
    (max_attempts : Nat) (now : String) :
    ∀ (k : Nat), 1 ≤ k →
      ∀ (j invoked : Nat) (last : Option ForensicError) (st : Logger)
        (e : ForensicError),
        j + k = max_attempts + 1 →
        (∀ i, j ≤ i → i ≤ max_attempts →
          ∃ er, op i = .error er ∧ er.is_retryable = true) →
        op max_attempts = .error e →
        (retry_loop op max_attempts now (List.range' j k) invoked last st).1
          = .error e := by
  intro k
  induction k with
  | zero => omega
  | succ k ih =>
    intro _ j invoked last st e hjk hall hmax
    rw [List.range'_succ]
    simp only [retry_loop]
    obtain ⟨er, her, hret⟩ := hall j le_rfl (by omega)
    cases hop : op j with
    | ok v =>
      rw [hop] at her
      exact absurd her (by simp)
    | error er2 =>
      dsimp only
      rw [hop] at her
      injection her with herr
      subst herr
      by_cases hk0 : k = 0
      · subst hk0
        have hjmax : j = max_attempts := by omega
        rw [if_neg (by rintro ⟨-, h2⟩; omega)]
        subst hjmax
        rw [hop] at hmax
        injection hmax with h
        rw [h]
      · rw [if_pos ⟨hret, by omega⟩]
        exact ih (by omega) (j + 1) (invoked + 1) (some er2) _ e (by omega)
          (fun i h1 h2 => hall i (by omega) h2) hmax

/-- C8: the retry helper invokes the operation at most `max_attempts`
times; a non-retryable first error (for example AccessDenied) means exactly
one invocation and that error is returned with the logger untouched; two
NetworkError failures followed by a success within three attempts yield Ok
after exactly three invocations; and when every attempt fails retryably,
the last error is returned. -/
theorem C8_retry_operation (T : Type) (op : Nat → Except ForensicError T)
    (max_attempts : Nat) (now : String) (st : Logger) :
    (retry_operation op max_attempts now st).2.1 ≤ max_attempts
    ∧ (∀ e, 1 ≤ max_attempts → op 1 = .error e → e.is_retryable = false →
        retry_operation op max_attempts now st = (.error e, 1, st))
    ∧ (∀ e1 e2 v, max_attempts = 3 →
        op 1 = .error e1 → e1.kind = .networkError →
        op 2 = .error e2 → e2.kind = .networkError → op 3 = .ok v →
        (retry_operation op max_attempts now st).1 = .ok v
          ∧ (retry_operation op max_attempts now st).2.1 = 3)
    ∧ (∀ e, 1 ≤ max_attempts → op max_attempts = .error e →
        (∀ i, 1 ≤ i → i ≤ max_attempts →
          ∃ er, op i = .error er ∧ er.is_retryable = true) →
        (retry_operation op max_attempts now st).1 = .error e) := by
  refine ⟨?_, ?_, ?_, ?_⟩
  · have := retry_loop_count_le op max_attempts now
      (List.range' 1 max_attempts) 0 none st
    simpa [retry_operation, List.length_range'] using this
  · intro e hmax h1 hret
    unfold retry_operation
    obtain ⟨k, hk⟩ : ∃ k, max_attempts = k + 1 := ⟨max_attempts - 1, by omega⟩
    rw [hk, List.range'_succ]
    simp only [retry_loop]
    cases hop : op 1 with
    | ok v => rw [hop] at h1; exact absurd h1 (by simp)
    | error e2 =>
      dsimp only
      rw [hop] at h1
      injection h1 with h1e
      subst h1e
      rw [if_neg (by rintro ⟨hc, -⟩; rw [hret] at hc; exact Bool.false_ne_true hc)]
  · intro e1 e2 v hmax h1 hk1 h2 hk2 h3
    subst hmax
    have hr : List.range' 1 3 = [1, 2, 3] := rfl
    have hr1 : (ForensicError.is_retryable e1) = true := by
      unfold ForensicError.is_retryable
      rw [hk1]
    have hr2 : (ForensicError.is_retryable e2) = true := by
      unfold ForensicError.is_retryable
      rw [hk2]
    unfold retry_operation
    rw [hr]
    simp only [retry_loop, h1, h2, h3, hr1, hr2]
    norm_num
  · intro e hmax hlast hall
    unfold retry_operation
    exact retry_loop_exhaust op max_attempts now max_attempts (by omega) 1 0 none
      st e (by omega) (fun i h1 h2 => hall i h1 h2) hlast

/-- C8 witness: the fixture operations — NetworkError twice then success
attempts exactly three times and yields Ok 99; AccessDenied attempts
exactly once and returns that error. -/
theorem C8_retry_operation_witness :
    (retry_operation c8_test_op 3 "T" (Logger.new false)).1 = .ok 99
    ∧ (retry_operation c8_test_op 3 "T" (Logger.new false)).2.1 = 3
    ∧ retry_operation c8_denied_op 3 "T" (Logger.new false)
        = (.error (ForensicError.new .accessDenied "Cannot access registry key"),
            1, Logger.new false) := by
  refine ⟨?_, ?_, ?_⟩
  · exact ((C8_retry_operation Nat c8_test_op 3 "T" (Logger.new false)).2.2.1
      (ForensicError.new .networkError "Temporary failure")
      (ForensicError.new .networkError "Temporary failure") 99
      rfl rfl rfl rfl rfl rfl).1
  · exact ((C8_retry_operation Nat c8_test_op 3 "T" (Logger.new false)).2.2.1
      (ForensicError.new .networkError "Temporary failure")
      (ForensicError.new .networkError "Temporary failure") 99
      rfl rfl rfl rfl rfl rfl).2
  · exact (C8_retry_operation Nat c8_denied_op 3 "T" (Logger.new false)).2.1
      (ForensicError.new .accessDenied "Cannot access registry key")
      (by omega) rfl rfl

/-- A fold whose step appends at most one element grows by at most the
list length. -/
theorem foldl_step_length_le {α β : Type} (f : List β → α → List β)
    (hf : ∀ acc x, (f acc x).length ≤ acc.length + 1) :
    ∀ (l : List α) (acc : List β),
      (l.foldl f acc).length ≤ acc.length + l.length := by
  intro l
  induction l with
  | nil => intro acc; simp
  | cons x xs ih =>
    intro acc
    simp only [List.foldl_cons, List.length_cons]
    calc (xs.foldl f (f acc x)).length ≤ (f acc x).length + xs.length := ih _
      _ ≤ acc.length + 1 + xs.length := by have := hf acc x; omega
      _ = acc.length + (xs.length + 1) := by omega

/-- C4: for each log, the collector passes at most 1024 record numbers to
`ReadEventLogW` — in fact at most 1000 — every one of them among the
most-recent 1024 record numbers of the log, regardless of how many records
the log contains; consequently at most 1024 entries are produced. -/
theorem C4_event_read_cap (num_records oldest_record : Nat)
    (read : Nat → Option EVENTLOGRECORD) (event_filter : List (Nat × String)) :
    (event_read_numbers num_records oldest_record).length ≤ 1024
    ∧ (∀ r ∈ event_read_numbers num_records oldest_record,
        oldest_record + num_records ≤ r + 1024
          ∧ r < oldest_record + num_records)
    ∧ (collect_events_from_log num_records oldest_record read
        event_filter).length ≤ 1024 := by
  refine ⟨?_, ?_, ?_⟩
  · simp only [event_read_numbers, List.length_range']
    omega
  · intro r hr
    simp only [event_read_numbers, List.mem_range'] at hr
    obtain ⟨i, hi, rfl⟩ := hr
    unfold event_read_start
    split <;> omega
  · have hstep : ∀ (acc : List EventLogEntry) (record_num : Nat),
        ((fun (acc : List EventLogEntry) (record_num : Nat) =>
          match read record_num with
          | some record =>
            match parse_event_record record event_filter with
            | .ok event => acc ++ [event]
            | .error _ => acc
          | none => acc) acc record_num).length ≤ acc.length + 1 := by
      intro acc record_num
      dsimp only
      split
      · split
        · simp
        · omega
      · omega
    have hb := foldl_step_length_le _ hstep
      (event_read_numbers num_records oldest_record) []
    have hlen : (event_read_numbers num_records oldest_record).length ≤ 1000 := by
      simp only [event_read_numbers, List.length_range']
      omega
    simp only [collect_events_from_log, List.length_mergeSort]
    simp only [List.length_nil, Nat.zero_add] at hb
    omega

/-- C4 witness: a log with 2000 records starting at record 1 — record
number 1001 is read, and it lies among the most-recent 1024. -/
theorem C4_event_read_cap_witness :
    1 + 2000 ≤ 1001 + 1024 ∧ 1001 < 1 + 2000 :=
  (C4_event_read_cap 2000 1 (fun _ => none) []).2.1 1001 (by decide)

/-- Mapping filenames over the prefetch directory fold yields the names of
the kept entries, in encounter order, appended to the accumulator's
filenames. -/
theorem collect_dir_filenames (prims : Prims) (now : String) :
    ∀ (entries : List DirEntry) (acc : List PrefetchFile),
      (entries.foldl
        (fun acc entry =>
          if is_pf_entry entry then
            match analyze_prefetch_file prims now entry with
            | .ok prefetch => acc ++ [prefetch]
            | .error _ => acc
          else acc) acc).map (fun p => p.filename)
      = acc.map (fun p => p.filename)
        ++ (entries.filter pf_kept).map (fun e => e.name) := by
  intro entries
  induction entries with
  | nil => intro acc; simp
  | cons e rest ih =>
    intro acc
    simp only [List.foldl_cons, List.filter_cons]
    by_cases hp : is_pf_entry e = true
    · rw [if_pos hp]
      by_cases hr : e.read_ok = true
      · by_cases hm : e.meta_ok = true
        · have ha : analyze_prefetch_file prims now e =
              .ok (parse_prefetch_data prims now e.bytes e.name
                (prims.sha256hex e.bytes) e.created_rfc3339 e.meta_len) := by
            unfold analyze_prefetch_file
            rw [if_neg (by simp [hr]), if_neg (by simp [hm])]
          rw [ha]
          dsimp only
          rw [ih]
          have hk : pf_kept e = true := by simp [pf_kept, hp, hr, hm]
          simp [hk, parse_prefetch_data, List.map_append]
        · have hm' : e.meta_ok = false := by
            cases h2 : e.meta_ok
            · rfl
            · exact absurd h2 hm
          have ha : analyze_prefetch_file prims now e = .error "metadata failed" := by
            unfold analyze_prefetch_file
            rw [if_neg (by simp [hr]), if_pos hm']
          rw [ha]
          dsimp only
          rw [ih]
          have hk : pf_kept e = false := by simp [pf_kept, hm']
          simp [hk]
      · have hr' : e.read_ok = false := by
          cases h2 : e.read_ok
          · rfl
          · exact absurd h2 hr
        have ha : analyze_prefetch_file prims now e = .error "read failed" := by
          unfold analyze_prefetch_file
          rw [if_pos hr']
        rw [ha]
        dsimp only
        rw [ih]
        have hk : pf_kept e = false := by simp [pf_kept, hr']
        simp [hk]
    · rw [if_neg hp]
      rw [ih]
      have hk : pf_kept e = false := by simp [pf_kept, hp]
      simp [hk]

/-- C5 counterexample: a walk that yields `B.PF` before `A.PF` (the OS
imposes no name order) produces the records in that same order, which is
not sorted by filename ascending — the collector contains no sort. -/
theorem C5_sort_counterexample :
    (collect_prefetch_files test_prims "T" test_walk).map (fun p => p.filename)
        = ["B.PF", "A.PF"]
    ∧ ¬ List.Pairwise (fun a b => rustStrLe a b = true)
        ((collect_prefetch_files test_prims "T" test_walk).map
          (fun p => p.filename)) := by
  refine ⟨by decide, ?_⟩
  intro hp
  rw [show (collect_prefetch_files test_prims "T" test_walk).map
      (fun p => p.filename) = ["B.PF", "A.PF"] from by decide] at hp
  simp only [List.pairwise_cons] at hp
  exact absurd (hp.1 "A.PF" (by simp)) (by decide)

/-- C5 as amended: the prefetch collector returns the successfully analyzed
`.pf` files in directory-walk encounter order — those of
`C:\Windows\Prefetch` followed by those of `C:\Windows\System32\Prefetch`,
each in the order the walk yields them; no sorting by filename (or
anything else) is applied. -/
theorem C5_walk_order (prims : Prims) (now : String)
    (walk : String → Option (List DirEntry)) :
    (collect_prefetch_files prims now walk).map (fun p => p.filename)
      = (((walk "C:\\Windows\\Prefetch").getD []).filter pf_kept).map
          (fun e => e.name)
        ++ (((walk "C:\\Windows\\System32\\Prefetch").getD []).filter pf_kept).map
            (fun e => e.name) := by
  have hdir : ∀ listing : Option (List DirEntry),
      (collect_prefetch_from_directory prims now listing).map (fun p => p.filename)
        = ((listing.getD []).filter pf_kept).map (fun e => e.name) := by
    intro listing
    cases listing with
    | none => rfl
    | some entries =>
      have h := collect_dir_filenames prims now entries []
      simpa [collect_prefetch_from_directory] using h
  unfold collect_prefetch_files
  simp only [List.foldl_cons, List.foldl_nil, List.nil_append, List.map_append, hdir]

end TriageIR
